import Mathlib

/-!
Verification of the OpalForge front-end client (app.js, latest revision, plus
the earliest revision of the prediction adapter).

JS strings are modelled as lists of characters; JS numbers that the verified
logic compares, scales and clamps are modelled as rationals.  The external
floating-point library function Math.exp is abstracted as a function
parameter: every claim settled here is independent of its values.
-/

namespace OpalForge

/-- JS strings modelled as lists of characters (ASCII in all relevant inputs). -/
abbrev JStr := List Char

/-- Embed a Lean string literal as a JS string. -/
def ofStr (s : String) : JStr := s.data

/-- Mirror of the ASCII case of String.prototype.toUpperCase on one character. -/
def jsCharToUpper (c : Char) : Char :=
  if 'a' ≤ c ∧ c ≤ 'z' then Char.ofNat (c.toNat - 32) else c

/-- Mirror of String.prototype.toUpperCase (ASCII inputs). -/
def jsToUpper (s : JStr) : JStr := s.map jsCharToUpper

/-- White-space set trimmed by String.prototype.trim: space, tab, line
terminators, vertical tab, form feed, no-break space, BOM.  (Further exotic
Unicode space separators also trimmed by JS are irrelevant here: every input
considered is ASCII.) -/
def isJsWhitespace (c : Char) : Bool :=
  c == ' ' || c == '\t' || c == '\n' || c == '\r' ||
  c == '\x0b' || c == '\x0c' || c == ' ' || c == '﻿'

/-- Mirror of String.prototype.trim. -/
def jsTrim (s : JStr) : JStr :=
  ((s.dropWhile isJsWhitespace).reverse.dropWhile isJsWhitespace).reverse

/-- Mirror of String.prototype.startsWith: the first argument is the sought
leading piece, the second the string searched. -/
def jsStartsWith : JStr → JStr → Bool
  | [], _ => true
  | _ :: _, [] => false
  | p :: ps, c :: cs => p == c && jsStartsWith ps cs

/-- Mirror of String.prototype.substr with non-negative arguments. -/
def jsSubstr (s : JStr) (start len : Nat) : JStr := (s.drop start).take len

/-- Response.ok of the fetch API: HTTP status in the range 200-299. -/
def httpOk (status : Nat) : Bool := 200 ≤ status && status < 300

/-- The clamp on line 372 of app.js: Math.max(0, Math.min(100, confidence)). -/
def clampQ (x : ℚ) : ℚ := max 0 (min 100 x)

/-- Result of the prediction adapter: a confidence value together with the
flag recording whether the softmax branch was taken (the code logs
"Applying softmax normalization" on that branch), or the thrown
"Unexpected output shape" error carrying the offending length. -/
inductive PredictOut where
  | conf (value : ℚ) (softmaxTaken : Bool)
  | shapeError (len : Nat)
deriving DecidableEq

/-- True exactly on the error outcome (the throw in predictImage). -/
def PredictOut.isError : PredictOut → Bool
  | .shapeError _ => true
  | .conf _ _ => false

/-- The softmax flag of a successful outcome. -/
def PredictOut.usedSoftmax : PredictOut → Bool
  | .conf _ s => s
  | .shapeError _ => false

/-- The confidence value of a successful outcome (0 on error, unused there). -/
def PredictOut.value : PredictOut → ℚ
  | .conf v _ => v
  | .shapeError _ => 0

/-- predictImage of the latest revision (app.js lines 307-382), from the point
where the raw output vector predData has been read back.  mexp stands for the
external Math.exp.  authenticIndex = 0, replicaIndex = 1 as in the source.
A one-element output is P(authentic) times 100; a two-element output is used
directly when the entries sum to within 0.01 of 1 and is sent through the
max-shifted softmax otherwise; any other length throws.  The final value is
clamped to [0, 100]. -/
def predictImage (mexp : ℚ → ℚ) (predData : List ℚ) : PredictOut :=
  match predData with
  | [p0] => .conf (clampQ (p0 * 100)) false
  | [a, b] =>
    if a + b < 99/100 ∨ 101/100 < a + b then
      let maxVal := max a b
      let expAuth := mexp (a - maxVal)
      let expRep := mexp (b - maxVal)
      .conf (clampQ (expAuth / (expAuth + expRep) * 100)) true
    else
      .conf (clampQ (a * 100)) false
  | l => .shapeError l.length

/-- predictImage of the earliest revision (src/unnamed/part_000 lines 46-59):
Math.max over the raw output vector, times 100, with no clamp.  The empty
vector (Math.max() = -Infinity) has no rational value and is mapped to none;
every claim concerns non-empty vectors. -/
def predictImageV0 (data : List ℚ) : Option ℚ :=
  match data with
  | [] => none
  | x :: xs => some (xs.foldl max x * 100)

/-- Display band selected by the upload handler of the latest revision
(app.js lines 552-561). -/
inductive Band where
  | authentic
  | uncertain
  | replica
deriving DecidableEq

/-- Decision policy of the latest revision (app.js lines 552-561): the band
shown, paired with whether resultAction (the mint button) is displayed. -/
def classifyConfidence (c : ℚ) : Band × Bool :=
  if 85 ≤ c then (.authentic, true)
  else if 50 ≤ c then (.uncertain, false)
  else (.replica, false)

/-- APP_URL of app.js line 256. -/
def appUrl : JStr := ofStr "https://opalforge.tech"

/-- The identifier minted on app.js line 405 from the string rand produced by
Math.random().toString(36): the fixed leading piece followed by
rand.substr(2, 9).toUpperCase(). -/
def mintedCertId (rand : JStr) : JStr :=
  ofStr "OF-" ++ jsToUpper (jsSubstr rand 2 9)

/-- The qrPayload built on app.js line 406. -/
def qrPayloadFor (certId : JStr) : JStr :=
  appUrl ++ ofStr "/?verify=" ++ certId

/-- Remote calls the mint flow can issue: the POST /certificate persistence
call (app.js lines 414-425) and the GET .../pdf call (lines 432-434). -/
inductive MintReq where
  | storePost (certId : JStr) (confidence : ℚ) (qrPayload : JStr)
  | pdfGet (certId : JStr) (qrData : JStr) (confidence : ℚ)
deriving DecidableEq

/-- User-visible outcome of the mint flow. -/
inductive MintMsg where
  | alertTooLow
  | minted (certId : JStr)
  | mintFailed
deriving DecidableEq

/-- Environment of one mint run: the HTTP statuses the two remote calls
would return. -/
structure MintEnv where
  storeStatus : Nat
  pdfStatus : Nat
deriving DecidableEq

/-- mintCertificate of the latest revision (app.js lines 399-460), recording
the remote calls issued in order together with the outcome shown to the user.
conf is currentConfidence, rand the Math.random().toString(36) string.
Below the 85 threshold the function alerts and returns with no call.  A
non-ok store response throws, is caught, and the PDF fetch is never reached;
a non-ok PDF response throws after both calls. -/
def mintCertificate (conf : ℚ) (rand : JStr) (env : MintEnv) :
    List MintReq × MintMsg :=
  if conf < 85 then ([], .alertTooLow)
  else
    let certId := mintedCertId rand
    let payload := qrPayloadFor certId
    if httpOk env.storeStatus then
      if httpOk env.pdfStatus then
        ([.storePost certId conf payload, .pdfGet certId payload conf],
         .minted certId)
      else
        ([.storePost certId conf payload, .pdfGet certId payload conf],
         .mintFailed)
    else
      ([.storePost certId conf payload], .mintFailed)

/-- Remote calls the verify flow can issue: the GET /certificate/{id} lookup
(app.js lines 482-483) and the GET /qr/{id} fetch inside
displayVerificationQR (lines 518-519). -/
inductive VerifyReq where
  | certGet (certId : JStr)
  | qrGet (certId : JStr)
deriving DecidableEq

/-- User-visible outcome of the verify flow. -/
inductive VerifyMsg where
  | emptyPrompt
  | badFormat
  | verified (certId : JStr)
  | notFound
  | verifyError
deriving DecidableEq

/-- Environment of one verify run: the HTTP status of the lookup, and whether
the qrDisplay DOM element exists (displayVerificationQR returns before its
fetch when it does not).  The status of the QR response only affects whether
the image is rendered, not which calls are issued, so it is not modelled. -/
structure VerifyEnv where
  lookupStatus : Nat
  qrContainerExists : Bool
deriving DecidableEq

/-- The local trimmedId of verifyCertificate (app.js line 463):
certId.trim().toUpperCase(). -/
def trimmedUpperId (certId : JStr) : JStr := jsToUpper (jsTrim certId)

/-- verifyCertificate of the latest revision (app.js lines 462-509) together
with displayVerificationQR (lines 512-530), recording the remote calls issued
in order and the outcome shown.  The identifier is trimmed then upper-cased;
an empty result, or one failing the leading-piece/length check, returns
before any call.  An ok lookup reports success and fetches the QR image when
the container exists; a 404 reports not found; anything else throws into the
catch. -/
def verifyCertificate (certId : JStr) (env : VerifyEnv) :
    List VerifyReq × VerifyMsg :=
  if trimmedUpperId certId = [] then ([], .emptyPrompt)
  else if ¬ jsStartsWith (ofStr "OF-") (trimmedUpperId certId) ∨
      (trimmedUpperId certId).length < 5 then ([], .badFormat)
  else if httpOk env.lookupStatus then
    if env.qrContainerExists then
      ([.certGet (trimmedUpperId certId), .qrGet (trimmedUpperId certId)],
       .verified (trimmedUpperId certId))
    else ([.certGet (trimmedUpperId certId)], .verified (trimmedUpperId certId))
  else if env.lookupStatus = 404 then
    ([.certGet (trimmedUpperId certId)], .notFound)
  else ([.certGet (trimmedUpperId certId)], .verifyError)

/-- The 36 characters Number.prototype.toString(36) can emit after the
point: the base-36 digits. -/
def b36Chars : JStr := ofStr "0123456789abcdefghijklmnopqrstuvwxyz"

/-- Recognise a base-36 digit. -/
def isB36 (c : Char) : Bool := decide (c ∈ b36Chars)

/-! ## Helper lemmas -/

theorem clampQ_nonneg (x : ℚ) : 0 ≤ clampQ x := le_max_left 0 _

theorem clampQ_le_hundred (x : ℚ) : clampQ x ≤ 100 :=
  max_le (by norm_num) (min_le_left _ _)

theorem dropWhile_eq_self_of_all (p : Char → Bool) (l : List Char)
    (h : ∀ c ∈ l, p c = false) : l.dropWhile p = l := by
  cases l with
  | nil => rfl
  | cons a l => simp [List.dropWhile_cons, h a (List.mem_cons_self a l)]

theorem jsTrim_eq_self (l : JStr) (h : ∀ c ∈ l, isJsWhitespace c = false) :
    jsTrim l = l := by
  unfold jsTrim
  rw [dropWhile_eq_self_of_all _ _ h,
    dropWhile_eq_self_of_all _ _ (fun c hc => h c (List.mem_reverse.mp hc)),
    List.reverse_reverse]

theorem b36_upper_fixed : ∀ c ∈ b36Chars,
    isJsWhitespace (jsCharToUpper c) = false ∧
    jsCharToUpper (jsCharToUpper c) = jsCharToUpper c := by decide

/-! ## Claim theorems -/

/-- Claim C1: the decision policy of the upload handler partitions the
confidence percentage into exactly three bands: confidence at least 85 shows
the authentic state with the mint action displayed, confidence in [50, 85)
shows the uncertain state with the mint action hidden, and confidence below
50 shows the replica state with the mint action hidden. -/
theorem decision_bands_partition (c : ℚ) :
    (classifyConfidence c = (Band.authentic, true) ↔ 85 ≤ c) ∧
    (classifyConfidence c = (Band.uncertain, false) ↔ 50 ≤ c ∧ c < 85) ∧
    (classifyConfidence c = (Band.replica, false) ↔ c < 50) := by
  unfold classifyConfidence
  split_ifs with h1 h2
  · refine ⟨by simp [h1], ?_, ?_⟩
    · simp only [Prod.mk.injEq]
      constructor
      · intro h
        exact absurd h.1 (by simp)
      · rintro ⟨-, h⟩
        exact absurd h1 (not_le.mpr h)
    · simp only [Prod.mk.injEq]
      constructor
      · intro h
        exact absurd h.1 (by simp)
      · intro h
        exact absurd h1 (not_le.mpr (by linarith))
  · refine ⟨?_, ?_, ?_⟩
    · simp only [Prod.mk.injEq]
      constructor
      · intro h
        exact absurd h.1 (by simp)
      · intro h
        exact absurd h h1
    · simp [h2, not_le.mp h1]
    · simp only [Prod.mk.injEq]
      constructor
      · intro h
        exact absurd h.1 (by simp)
      · intro h
        exact absurd h2 (not_le.mpr h)
  · refine ⟨?_, ?_, ?_⟩
    · simp only [Prod.mk.injEq]
      constructor
      · intro h
        exact absurd h.1 (by simp)
      · intro h
        exact absurd h h1
    · simp only [Prod.mk.injEq]
      constructor
      · intro h
        exact absurd h.1 (by simp)
      · rintro ⟨h, -⟩
        exact absurd h h2
    · simp [not_le.mp h2]

/-- Claim C3: whenever the latest prediction adapter returns a confidence
value (any output vector it accepts, any stand-in for Math.exp), that value
lies in the closed interval [0, 100], because of the final clamp. -/
theorem predict_confidence_in_range (mexp : ℚ → ℚ) (predData : List ℚ)
    (v : ℚ) (s : Bool) (h : predictImage mexp predData = .conf v s) :
    0 ≤ v ∧ v ≤ 100 := by
  rcases predData with - | ⟨p0, - | ⟨p1, rest⟩⟩
  · simp [predictImage] at h
  · simp only [predictImage, PredictOut.conf.injEq] at h
    rw [← h.1]
    exact ⟨clampQ_nonneg _, clampQ_le_hundred _⟩
  · rcases rest with - | ⟨p2, rest⟩
    · simp only [predictImage] at h
      split_ifs at h <;>
        simp only [PredictOut.conf.injEq] at h <;>
        rw [← h.1] <;>
        exact ⟨clampQ_nonneg _, clampQ_le_hundred _⟩
    · simp [predictImage] at h

/-- Witness for C3 at the concrete output vector [1/2, 1/2]. -/
theorem predict_confidence_in_range_witness :
    0 ≤ (50 : ℚ) ∧ (50 : ℚ) ≤ 100 :=
  predict_confidence_in_range (fun _ => 1) [1/2, 1/2] 50 false (by
    simp only [predictImage]
    rw [if_neg (by norm_num)]
    norm_num [clampQ])

/-- Claim C4: the latest prediction adapter throws on every output vector
whose length is neither 1 nor 2, and returns a confidence on every vector of
length 1 or 2. -/
theorem predict_error_iff_bad_length (mexp : ℚ → ℚ) (predData : List ℚ) :
    (predictImage mexp predData).isError = true ↔
      ¬ (predData.length = 1 ∨ predData.length = 2) := by
  rcases predData with - | ⟨p0, - | ⟨p1, - | ⟨p2, rest⟩⟩⟩
  · simp [predictImage, PredictOut.isError]
  · simp [predictImage, PredictOut.isError]
  · simp only [predictImage]
    split_ifs <;> simp [PredictOut.isError]
  · simp [predictImage, PredictOut.isError]

/-- Claim C10: the earliest revision of the prediction adapter returns the
maximum element of the output vector times 100; on a two-element vector of
non-negative entries summing to 1 the result is therefore at least 50. -/
theorem v0_two_class_min_fifty (a b : ℚ) (_ha : 0 ≤ a) (_hb : 0 ≤ b)
    (hs : a + b = 1) :
    predictImageV0 [a, b] = some (max a b * 100) ∧ 50 ≤ max a b * 100 := by
  constructor
  · simp [predictImageV0]
  · rcases le_total a b with h | h
    · rw [max_eq_right h]
      linarith
    · rw [max_eq_left h]
      linarith

/-- Witness for C10 at the concrete softmax output [3/10, 7/10]. -/
theorem v0_two_class_min_fifty_witness :
    predictImageV0 [3/10, 7/10] = some (max (3/10 : ℚ) (7/10) * 100) ∧
    50 ≤ max (3/10 : ℚ) (7/10) * 100 :=
  v0_two_class_min_fifty (3/10) (7/10) (by norm_num) (by norm_num)
    (by norm_num)

/-- Counterexample to claim C2 as stated: the vector [11/20, 1/2] sums to
21/20, inside the claimed tolerance of 0.1 around 1, yet the code takes the
softmax branch, because its actual tolerance test is against 0.99 and 1.01.
The branch taken does not depend on the stand-in supplied for Math.exp; a
rational Taylor polynomial of exp is used here to evaluate the code. -/
theorem softmax_tolerance_cex :
    (9/10 : ℚ) ≤ 11/20 + 1/2 ∧ (11/20 : ℚ) + 1/2 ≤ 11/10 ∧
    (predictImage (fun q => 1 + q + q^2/2 + q^3/6 + q^4/24)
      [11/20, 1/2]).usedSoftmax = true := by
  refine ⟨by norm_num, by norm_num, ?_⟩
  simp only [predictImage]
  rw [if_pos (by norm_num)]
  rfl

/-- Claim C2 amended: the tolerance around 1 is 0.01, not 0.1.  For every
two-element output vector whose entries sum to within [0.99, 1.01], the
adapter returns the clamped value of entry 0 times 100 with no softmax
applied; whenever the sum falls outside [0.99, 1.01] the softmax branch is
taken. -/
theorem softmax_tolerance_amended (mexp : ℚ → ℚ) (a b : ℚ) :
    (99/100 ≤ a + b → a + b ≤ 101/100 →
      predictImage mexp [a, b] = .conf (clampQ (a * 100)) false) ∧
    ((a + b < 99/100 ∨ 101/100 < a + b) →
      (predictImage mexp [a, b]).usedSoftmax = true) := by
  constructor
  · intro h1 h2
    simp only [predictImage]
    rw [if_neg (by push_neg; exact ⟨h1, h2⟩)]
  · intro h
    simp only [predictImage]
    rw [if_pos h]
    rfl

/-- Witness for the amended C2: the in-tolerance vector [1/2, 1/2] is used
directly and the out-of-tolerance vector [2, 2] goes through softmax. -/
theorem softmax_tolerance_amended_witness :
    predictImage (fun _ => (1 : ℚ)) [1/2, 1/2] =
      .conf (clampQ ((1/2) * 100)) false ∧
    (predictImage (fun _ => (1 : ℚ)) [2, 2]).usedSoftmax = true :=
  ⟨(softmax_tolerance_amended (fun _ => 1) (1/2) (1/2)).1 (by norm_num)
      (by norm_num),
   (softmax_tolerance_amended (fun _ => 1) 2 2).2 (Or.inr (by norm_num))⟩

/-- Claim C5: with a stored confidence strictly below 85 the mint handler
alerts that the score is too low and issues no remote call at all; with
confidence at least 85 the mint sequence proceeds, its first remote call
being the POST that sends the freshly minted identifier. -/
theorem mint_threshold_guard (conf : ℚ) (rand : JStr) (env : MintEnv) :
    (conf < 85 → mintCertificate conf rand env = ([], .alertTooLow)) ∧
    (85 ≤ conf → (mintCertificate conf rand env).1.head? =
      some (.storePost (mintedCertId rand) conf
        (qrPayloadFor (mintedCertId rand)))) := by
  constructor
  · intro h
    simp [mintCertificate, h]
  · intro h
    have h' : ¬ conf < 85 := not_lt.mpr h
    by_cases hs : httpOk env.storeStatus <;>
      by_cases hp : httpOk env.pdfStatus <;>
      simp [mintCertificate, h', hs, hp]

/-- Witness for C5: confidence 50 issues nothing, confidence 90 opens with
the POST. -/
theorem mint_threshold_guard_witness :
    mintCertificate 50 (ofStr "0.abc123xyz") ⟨200, 200⟩ =
      ([], .alertTooLow) ∧
    (mintCertificate 90 (ofStr "0.abc123xyz") ⟨200, 200⟩).1.head? =
      some (.storePost (mintedCertId (ofStr "0.abc123xyz")) 90
        (qrPayloadFor (mintedCertId (ofStr "0.abc123xyz")))) :=
  ⟨(mint_threshold_guard 50 (ofStr "0.abc123xyz") ⟨200, 200⟩).1 (by norm_num),
   (mint_threshold_guard 90 (ofStr "0.abc123xyz") ⟨200, 200⟩).2 (by norm_num)⟩

/-- Claim C6: when the persistence POST of the mint flow returns a non-success
HTTP status, the sequence stops with exactly that one call issued, the PDF
fetch is never attempted, no call is retried, and the failure is reported. -/
theorem mint_store_failure_aborts (conf : ℚ) (rand : JStr) (env : MintEnv)
    (hconf : 85 ≤ conf) (hfail : httpOk env.storeStatus = false) :
    mintCertificate conf rand env =
      ([.storePost (mintedCertId rand) conf
         (qrPayloadFor (mintedCertId rand))], .mintFailed) := by
  have h' : ¬ conf < 85 := not_lt.mpr hconf
  simp [mintCertificate, h', hfail]

/-- Witness for C6: confidence 90 with the store call answering 500. -/
theorem mint_store_failure_aborts_witness :
    mintCertificate 90 (ofStr "0.abcde1234") ⟨500, 200⟩ =
      ([.storePost (mintedCertId (ofStr "0.abcde1234")) 90
         (qrPayloadFor (mintedCertId (ofStr "0.abcde1234")))], .mintFailed) :=
  mint_store_failure_aborts 90 (ofStr "0.abcde1234") ⟨500, 200⟩ (by norm_num)
    (by decide)

/-- Claim C7: every identifier whose trimmed, upper-cased form does not start
with the fixed leading piece, or is shorter than five characters, is rejected
locally by the verify flow: no remote call is issued and the user sees either
the empty-input prompt or the bad-format message. -/
theorem verify_bad_format_no_network (certId : JStr) (env : VerifyEnv)
    (h : ¬ jsStartsWith (ofStr "OF-") (trimmedUpperId certId) = true ∨
      (trimmedUpperId certId).length < 5) :
    (verifyCertificate certId env).1 = [] ∧
    ((verifyCertificate certId env).2 = .emptyPrompt ∨
     (verifyCertificate certId env).2 = .badFormat) := by
  by_cases ht : trimmedUpperId certId = []
  · simp [verifyCertificate, ht]
  · unfold verifyCertificate
    rw [if_neg ht, if_pos h]
    simp

/-- Witness for C7: the identifier XX-12345 fails the leading-piece check and
produces no request. -/
theorem verify_bad_format_no_network_witness :
    (verifyCertificate (ofStr "XX-12345") ⟨200, true⟩).1 = [] ∧
    ((verifyCertificate (ofStr "XX-12345") ⟨200, true⟩).2 = .emptyPrompt ∨
     (verifyCertificate (ofStr "XX-12345") ⟨200, true⟩).2 = .badFormat) :=
  verify_bad_format_no_network (ofStr "XX-12345") ⟨200, true⟩
    (Or.inl (by decide))

/-- Counterexample to claim C8 as stated: the lookup answering 201 (a
success status other than 200) still triggers the QR fetch, because the code
branches on Response.ok, which covers every status from 200 to 299. -/
theorem verify_qr_on_201_cex :
    VerifyReq.qrGet (ofStr "OF-AB123") ∈
      (verifyCertificate (ofStr "OF-AB123") ⟨201, true⟩).1 ∧
    (201 : Nat) ≠ 200 := by decide

/-- Claim C8 amended: a 404 lookup response displays the not-found message
and never triggers the QR fetch; the QR fetch is issued only when the lookup
response has a success status (200 to 299, Response.ok), not only on exactly
200. -/
theorem verify_404_no_qr (certId : JStr) (env : VerifyEnv) :
    (env.lookupStatus = 404 →
      (∀ q, VerifyReq.qrGet q ∉ (verifyCertificate certId env).1) ∧
      ((verifyCertificate certId env).1 ≠ [] →
        (verifyCertificate certId env).2 = .notFound)) ∧
    (∀ q, VerifyReq.qrGet q ∈ (verifyCertificate certId env).1 →
      httpOk env.lookupStatus = true) := by
  unfold verifyCertificate
  split_ifs with h1 h2 h3 h4 h5
  · simp
  · simp
  · exact ⟨fun h404 => by rw [h404] at h3; exact absurd h3 (by decide),
      fun q _ => h3⟩
  · exact ⟨fun h404 => by rw [h404] at h3; exact absurd h3 (by decide),
      fun q _ => h3⟩
  · exact ⟨fun _ => ⟨by simp, fun _ => rfl⟩, by simp⟩
  · exact ⟨fun h404 => absurd h404 h5, by simp⟩

/-- Witness for the amended C8: identifier OF-AB123 with the lookup answering
404 reports not found and issues no QR fetch. -/
theorem verify_404_no_qr_witness :
    VerifyReq.qrGet (ofStr "OF-AB123") ∉
      (verifyCertificate (ofStr "OF-AB123") ⟨404, true⟩).1 ∧
    (verifyCertificate (ofStr "OF-AB123") ⟨404, true⟩).2 = .notFound :=
  ⟨((verify_404_no_qr (ofStr "OF-AB123") ⟨404, true⟩).1 rfl).1 _,
   ((verify_404_no_qr (ofStr "OF-AB123") ⟨404, true⟩).1 rfl).2 (by decide)⟩

/-- Counterexample to claim C9 as stated: Math.random() can return 0.5, whose
base-36 rendering is the string 0.i, so the mint flow can produce the
identifier OF-I; fed back into verify, that identifier fails the minimum
length check (4 < 5) and never reaches the remote lookup. -/
theorem minted_id_roundtrip_cex :
    (mintCertificate 90 (ofStr "0.i") ⟨200, 200⟩).2 =
      MintMsg.minted (ofStr "OF-I") ∧
    (verifyCertificate (ofStr "OF-I") ⟨200, true⟩).1 = [] ∧
    (verifyCertificate (ofStr "OF-I") ⟨200, true⟩).2 =
      VerifyMsg.badFormat := by
  refine ⟨?_, by decide, by decide⟩
  decide

/-- Claim C9 amended: every identifier minted from a random string carrying
at least two base-36 digits after the leading 0. is already trimmed and
upper-cased, passes the local format checks of verify, and reaches the remote
lookup unmodified. -/
theorem minted_id_roundtrip (ds : JStr) (env : VerifyEnv)
    (hlen : 2 ≤ ds.length) (hb : ∀ c ∈ ds, isB36 c = true) :
    trimmedUpperId (mintedCertId ('0' :: '.' :: ds)) =
      mintedCertId ('0' :: '.' :: ds) ∧
    (verifyCertificate (mintedCertId ('0' :: '.' :: ds)) env).1.head? =
      some (.certGet (mintedCertId ('0' :: '.' :: ds))) := by
  have hmem : ∀ c ∈ ds.take 9, c ∈ b36Chars := fun c hc => by
    have h := hb c (List.mem_of_mem_take hc)
    simpa [isB36] using h
  have hid : mintedCertId ('0' :: '.' :: ds) =
      'O' :: 'F' :: '-' :: (ds.take 9).map jsCharToUpper := rfl
  have hnws : ∀ c ∈ mintedCertId ('0' :: '.' :: ds),
      isJsWhitespace c = false := by
    rw [hid]
    intro c hc
    rcases List.mem_cons.mp hc with rfl | hc
    · decide
    rcases List.mem_cons.mp hc with rfl | hc
    · decide
    rcases List.mem_cons.mp hc with rfl | hc
    · decide
    obtain ⟨d, hd, rfl⟩ := List.mem_map.mp hc
    exact (b36_upper_fixed d (hmem d hd)).1
  have hfix : ∀ c ∈ mintedCertId ('0' :: '.' :: ds),
      jsCharToUpper c = c := by
    rw [hid]
    intro c hc
    rcases List.mem_cons.mp hc with rfl | hc
    · decide
    rcases List.mem_cons.mp hc with rfl | hc
    · decide
    rcases List.mem_cons.mp hc with rfl | hc
    · decide
    obtain ⟨d, hd, rfl⟩ := List.mem_map.mp hc
    exact (b36_upper_fixed d (hmem d hd)).2
  have hupper : jsToUpper (mintedCertId ('0' :: '.' :: ds)) =
      mintedCertId ('0' :: '.' :: ds) := by
    unfold jsToUpper
    exact (List.map_congr_left hfix).trans (List.map_id _)
  have ht : trimmedUpperId (mintedCertId ('0' :: '.' :: ds)) =
      mintedCertId ('0' :: '.' :: ds) := by
    unfold trimmedUpperId
    rw [jsTrim_eq_self _ hnws, hupper]
  refine ⟨ht, ?_⟩
  have hne : mintedCertId ('0' :: '.' :: ds) ≠ [] := by
    rw [hid]
    simp
  have hsw : jsStartsWith (ofStr "OF-") (mintedCertId ('0' :: '.' :: ds)) =
      true := by
    rw [hid]
    simp [jsStartsWith, ofStr]
  have hlong : ¬ (mintedCertId ('0' :: '.' :: ds)).length < 5 := by
    rw [hid]
    simp only [List.length_cons, List.length_map, List.length_take]
    omega
  unfold verifyCertificate
  rw [ht, if_neg hne,
    if_neg (show ¬ _ by rintro (hns | hl); exacts [hns hsw, hlong hl])]
  split_ifs <;> rfl

/-- Witness for the amended C9: the nine-digit random suffix abcde1234 mints
OF-ABCDE1234, which verify sends to the lookup unchanged. -/
theorem minted_id_roundtrip_witness :
    2 ≤ (ofStr "abcde1234").length ∧
    (verifyCertificate (mintedCertId ('0' :: '.' :: ofStr "abcde1234"))
      ⟨200, true⟩).1.head? =
      some (.certGet (mintedCertId ('0' :: '.' :: ofStr "abcde1234"))) :=
  ⟨by decide,
   (minted_id_roundtrip (ofStr "abcde1234") ⟨200, true⟩ (by decide)
     (by decide)).2⟩

end OpalForge
